import Mathlib

/-!
Verification development for the multi-agent research system
(planner / researcher / validator / orchestrator).

Python strings are modelled as `List Char` (`PyStr`), JSON values as the
inductive `JValue`, and `json.loads` as the fuel-based recursive-descent
parser `json_loads`.  The response-cleanup block that every agent applies
to model output before `json.loads` is `clean_response`.  Stateful agent
behaviour (conversation history threaded through `call_llm`) is modelled
by explicit state passing; the language-model service is an oracle
function from the request message list to the response text.  Fallible
Python code paths return `Except PyErr`/`Option`; exception classes that
the source does not catch surface as `.error`.
-/

/-- Python strings, modelled as lists of characters. -/
abbrev PyStr := List Char

/-- The backquote character (used by the fenced-block markers). -/
def backquote : Char := Char.ofNat 96

/-- Python `str.strip()` default whitespace (ASCII subset; the exotic
unicode whitespace Python also strips never occurs in the modelled data). -/
def pyws (c : Char) : Bool :=
  c == ' ' || c == '\t' || c == '\n' || c == '\r' || c == '\x0b' || c == '\x0c'

/-- Python `str.lstrip()`. -/
def lstrip (l : PyStr) : PyStr := l.dropWhile pyws

/-- Python `str.rstrip()`. -/
def rstrip (l : PyStr) : PyStr := (l.reverse.dropWhile pyws).reverse

/-- Python `str.strip()`. -/
def pystrip (l : PyStr) : PyStr := rstrip (lstrip l)

/-- Worker for `pysplit`, with explicit fuel so that the kernel can
evaluate it (the fuel is always at least the list length plus one). -/
def splitFuel (sep : List Char) : Nat → List Char → List (List Char)
  | 0, l => [l]
  | _fuel+1, [] => [[]]
  | fuel+1, c :: rest =>
    if sep.isPrefixOf (c :: rest) then
      [] :: splitFuel sep fuel (List.drop (sep.length - 1) rest)
    else
      match splitFuel sep fuel rest with
      | [] => [[c]]
      | h :: t => (c :: h) :: t

/-- Python `s.split(sep)` for a non-empty separator: non-overlapping,
leftmost-first occurrences. -/
def pysplit (sep l : List Char) : List (List Char) := splitFuel sep (l.length + 1) l

/-- Python list indexing `ls[i]`; all call sites in the modelled code are
guarded so that the index is in range, hence the default is unreachable. -/
def pyindex (ls : List PyStr) (i : Nat) : PyStr := ls.getD i []

/-- Python `s.find(c)` for a single-character needle, as an `Option`
(`none` plays the role of Python's `-1`). -/
def findChar (c : Char) : PyStr → Option Nat
  | [] => none
  | a :: rest => if a = c then some 0 else (findChar c rest).map (· + 1)

/-- Python `s.rfind(c)` for a single-character needle. -/
def rfindChar (c : Char) (l : PyStr) : Option Nat :=
  (findChar c l.reverse).map (fun i => l.length - 1 - i)

/-- Python slicing `s[a:b]` for `0 ≤ a ≤ b`. -/
def pyslice (l : PyStr) (a b : Nat) : PyStr := (l.drop a).take (b - a)

/-! ## JSON values and `json.loads` -/

/-- JSON values.  Numbers are kept syntactically as mantissa and decimal
exponent (value `m * 10^e`), so that parsing is free of rational-number
normalisation; `jnum_val` recovers the numeric value. -/
inductive JValue where
  | null : JValue
  | bool (b : Bool) : JValue
  | num (m : Int) (e : Int) : JValue
  | str (s : PyStr) : JValue
  | arr (items : List JValue) : JValue
  | obj (fields : List (PyStr × JValue)) : JValue

/-- Numeric value of a parsed JSON number. -/
def jnum_val (m e : Int) : ℚ := (m : ℚ) * 10 ^ e

/-- Python `dict.get(k)` on a parsed JSON object: later duplicate keys win,
as in `json.loads`. -/
def jGet (fields : List (PyStr × JValue)) (k : PyStr) : Option JValue :=
  (fields.reverse.find? (fun p => p.1 == k)).map (fun p => p.2)

/-- Python `dict.get(k, d)`. -/
def jGetD (fields : List (PyStr × JValue)) (k : PyStr) (d : JValue) : JValue :=
  (jGet fields k).getD d

/-- JSON whitespace accepted between tokens by `json.loads`. -/
def jsonWsChar (c : Char) : Bool :=
  c == ' ' || c == '\t' || c == '\n' || c == '\r'

/-- Skip JSON whitespace. -/
def skipJsonWs (l : PyStr) : PyStr := l.dropWhile jsonWsChar

/-- Decimal digit value. -/
def digitVal (c : Char) : Nat := c.toNat - 48

/-- Digits to a natural number. -/
def digitsToNat (ds : PyStr) : Nat := ds.foldl (fun a c => a * 10 + digitVal c) 0

/-- Hexadecimal digit value, if any. -/
def hexVal (c : Char) : Option Nat :=
  if '0' ≤ c ∧ c ≤ '9' then some (c.toNat - 48)
  else if 'a' ≤ c ∧ c ≤ 'f' then some (c.toNat - 87)
  else if 'A' ≤ c ∧ c ≤ 'F' then some (c.toNat - 55)
  else none

/-- Body of a JSON string after the opening quote: characters and escapes
until the closing quote.  Returns the decoded content and the remaining
input.  (Surrogate-pair recombination for `\uXXXX` escapes is not
modelled; no modelled datum uses it.) -/
def parseStrBody : PyStr → Option (PyStr × PyStr)
  | [] => none
  | '"' :: rest => some ([], rest)
  | '\\' :: 'u' :: h1 :: h2 :: h3 :: h4 :: rest =>
    match hexVal h1, hexVal h2, hexVal h3, hexVal h4 with
    | some a, some b, some c, some d =>
      (parseStrBody rest).map
        (fun p => (Char.ofNat (((a * 16 + b) * 16 + c) * 16 + d) :: p.1, p.2))
    | _, _, _, _ => none
  | '\\' :: e :: rest =>
    (match e with
      | '"' => some '"'
      | '\\' => some '\\'
      | '/' => some '/'
      | 'b' => some '\x08'
      | 'f' => some '\x0c'
      | 'n' => some '\n'
      | 'r' => some '\r'
      | 't' => some '\t'
      | _ => none).bind
    (fun d => (parseStrBody rest).map (fun p : PyStr × PyStr => (d :: p.1, p.2)))
  | c :: rest =>
    if c.toNat < 32 then none
    else (parseStrBody rest).map (fun p => (c :: p.1, p.2))

/-- JSON number grammar `-?(0|[1-9][0-9]*)(.[0-9]+)?([eE][+-]?[0-9]+)?`,
returning mantissa, decimal exponent and the remaining input. -/
def parseNum (l : PyStr) : Option ((Int × Int) × PyStr) :=
  let (neg, l1) : Bool × PyStr :=
    match l with
    | '-' :: r => (true, r)
    | _ => (false, l)
  let ds := l1.takeWhile Char.isDigit
  let l2 := l1.drop ds.length
  if ds.isEmpty then none
  else if ds.head? = some '0' ∧ ds.length ≠ 1 then none
  else
    let (fds, l3) : PyStr × PyStr :=
      match l2 with
      | '.' :: r =>
        let f := r.takeWhile Char.isDigit
        (f, r.drop f.length)
      | _ => ([], l2)
    if l2.head? = some '.' ∧ fds.isEmpty then none
    else
      let (eok, ev, l4) : Bool × Int × PyStr :=
        match l3 with
        | 'e' :: r | 'E' :: r =>
          let (eneg, r1) : Bool × PyStr :=
            match r with
            | '-' :: r2 => (true, r2)
            | '+' :: r2 => (false, r2)
            | _ => (false, r)
          let eds := r1.takeWhile Char.isDigit
          if eds.isEmpty then (false, 0, r1)
          else (true, (if eneg then -(digitsToNat eds : Int) else (digitsToNat eds : Int)),
                r1.drop eds.length)
        | _ => (true, 0, l3)
      if ¬ eok then none
      else
        let mNat : Nat := digitsToNat ds * 10 ^ fds.length + digitsToNat fds
        let m : Int := if neg then -(mNat : Int) else (mNat : Int)
        some ((m, ev - (fds.length : Int)), l4)

mutual

/-- Recursive-descent JSON value parser (fuel-indexed so that it is
structurally recursive and kernel-evaluable). -/
def parseVal : Nat → PyStr → Option (JValue × PyStr)
  | 0, _ => none
  | fuel+1, l =>
    match skipJsonWs l with
    | [] => none
    | c :: rest =>
      if c = '"' then (parseStrBody rest).map (fun p => (.str p.1, p.2))
      else if c = '{' then
        (parseObjItems fuel (skipJsonWs rest) true).map (fun q => (.obj q.1, q.2))
      else if c = '[' then
        (parseArrItems fuel (skipJsonWs rest) true).map (fun q => (.arr q.1, q.2))
      else if "true".toList.isPrefixOf (c :: rest) then some (.bool true, (c :: rest).drop 4)
      else if "false".toList.isPrefixOf (c :: rest) then some (.bool false, (c :: rest).drop 5)
      else if "null".toList.isPrefixOf (c :: rest) then some (.null, (c :: rest).drop 4)
      else (parseNum (c :: rest)).map (fun p => (.num p.1.1 p.1.2, p.2))

/-- Array items after `[` (whitespace already skipped); `first` is true
when no item has been consumed yet, so that `]` closes an empty array. -/
def parseArrItems : Nat → PyStr → Bool → Option (List JValue × PyStr)
  | 0, _, _ => none
  | fuel+1, l, first =>
    match l with
    | ']' :: rest => if first then some ([], rest) else none
    | _ =>
      (parseVal fuel l).bind (fun p =>
        match skipJsonWs p.2 with
        | ']' :: r2 => some ([p.1], r2)
        | ',' :: r2 =>
          (parseArrItems fuel (skipJsonWs r2) false).map (fun q => (p.1 :: q.1, q.2))
        | _ => none)

/-- Object members after `{` (whitespace already skipped). -/
def parseObjItems : Nat → PyStr → Bool → Option (List (PyStr × JValue) × PyStr)
  | 0, _, _ => none
  | fuel+1, l, first =>
    match l with
    | '}' :: rest => if first then some ([], rest) else none
    | '"' :: rest =>
      (parseStrBody rest).bind (fun pk =>
        match skipJsonWs pk.2 with
        | ':' :: r2 =>
          (parseVal fuel r2).bind (fun pv =>
            match skipJsonWs pv.2 with
            | '}' :: r3 => some ([(pk.1, pv.1)], r3)
            | ',' :: r3 =>
              (parseObjItems fuel (skipJsonWs r3) false).map
                (fun q => ((pk.1, pv.1) :: q.1, q.2))
            | _ => none)
        | _ => none)
    | _ => none

end

/-- Python `json.loads`: parse one JSON document, demanding that only
whitespace follows it; `none` models a raised `json.JSONDecodeError`.
(`NaN`/`Infinity` extensions are not modelled.) -/
def json_loads (l : PyStr) : Option JValue :=
  match parseVal (l.length + 1) l with
  | some (v, rest) => if (skipJsonWs rest).isEmpty then some v else none
  | none => none

/-! ## The shared response-cleanup block

Every structured-output call site (`_assess_complexity`,
`_generate_tasks` in the planner, `_extract_findings` in the researcher,
`_evaluate_source` and `_validate_content` in the validator) applies the
same cleanup before `json.loads`:

    response = response.strip()
    if response.startswith("```json"):
        response = response.split("```json")[1].split("```")[0].strip()
    elif response.startswith("```"):
        response = response.split("```")[1].split("```")[0].strip()
    if not response.startswith("{"):
        start = response.find("{")
        end = response.rfind("}") + 1
        if start != -1 and end > start:
            response = response[start:end]

(`_plan_searches` and `decide_tool_use` apply only the first, fenced-block
part; that variant is `clean_response_fence_only`.) -/

/-- The `"```json"` marker. -/
def fenceJson : PyStr := "```json".toList

/-- The `"```"` marker. -/
def fence : PyStr := "```".toList

/-- The fenced-block part of the cleanup (strip, then cut the content out
of the first fenced block if the text opens with a fence marker). -/
def clean_response_fence_only (response : PyStr) : PyStr :=
  let r := pystrip response
  if fenceJson.isPrefixOf r then
    pystrip (pyindex (pysplit fence (pyindex (pysplit fenceJson r) 1)) 0)
  else if fence.isPrefixOf r then
    pystrip (pyindex (pysplit fence (pyindex (pysplit fence r) 1)) 0)
  else r

/-- The full cleanup block: fenced-block part, then — when the text does
not already open with `{` — the slice from the first `{` to the last `}`. -/
def clean_response (response : PyStr) : PyStr :=
  let r := clean_response_fence_only response
  if ("\x7b".toList).isPrefixOf r then r
  else
    match findChar '{' r, rfindChar '}' r with
    | some a, some e => if a < e + 1 then pyslice r a (e + 1) else r
    | _, _ => none.getD r

/-- Cleanup followed by `json.loads`, the common "extraction" of every
structured-output call site; `none` is the caught `json.JSONDecodeError`. -/
def extract_payload (response : PyStr) : Option JValue :=
  json_loads (clean_response response)

-- sanity checks (parser and cleanup on concrete data)
example : json_loads "[1, 2]".toList = some (.arr [.num 1 0, .num 2 0]) := rfl
example : json_loads "\x7b\"a\": 0.3\x7d".toList = some (.obj [("a".toList, .num 3 (-1))]) := rfl
example : json_loads "\x7b\"a\": -1.5e2\x7d".toList = some (.obj [("a".toList, .num (-15) 1)]) := rfl
example : json_loads "not json".toList = none := rfl
example : json_loads "\x7b\"a\": [true, false, null, \"x\"]\x7d".toList
    = some (.obj [("a".toList, .arr [.bool true, .bool false, .null, .str ['x']])]) := rfl
example : clean_response "```json\n\x7b\"a\": 1\x7d\n```".toList = "\x7b\"a\": 1\x7d".toList := rfl
example : clean_response "```\n\x7b\"a\": 1\x7d\n```".toList = "\x7b\"a\": 1\x7d".toList := rfl
example : clean_response "Sure! \x7b\"a\": 1\x7d trailing".toList = "\x7b\"a\": 1\x7d".toList := rfl
example : extract_payload "  \x7b\"a\": []\x7d  ".toList = some (.obj [("a".toList, .arr [])]) := rfl

/-! ## Agent contract (`base_agent.call_llm`)

The language-model service is an oracle function from the request's
message list to the response text (model, system prompt, temperature and
token limit are fixed per agent and identical across the runs any claim
compares, so they are not part of the oracle's input).  `call_llm`
prepends the last 10 messages of the agent's conversation history to the
request and appends the new user/assistant exchange to the history. -/

/-- One message of a request or of the conversation history. -/
structure ChatMessage where
  role : PyStr
  content : PyStr

/-- The language-model service as seen by one agent. -/
abbrev LlmService := List ChatMessage → PyStr

/-- `Agent.call_llm`: build the request messages (history tail plus the
new user prompt), query the service, extend the history.  Returns the
response text and the updated conversation history. -/
def call_llm (svc : LlmService) (history : List ChatMessage) (prompt : PyStr) :
    PyStr × List ChatMessage :=
  let base := [ChatMessage.mk "user".toList prompt]
  let messages := if history.isEmpty then base else history.drop (history.length - 10) ++ base
  let response := svc messages
  (response, history ++ [ChatMessage.mk "user".toList prompt,
                         ChatMessage.mk "assistant".toList response])

/-! ## Python exception classes that the modelled code can raise -/

/-- Exceptions relevant to the modelled paths.  `keyError` covers the
planner's task-ceiling lookup on an unknown tier (for unhashable keys
Python would raise `TypeError` instead, equally uncaught);
`attributeError` covers `.get` on a non-dict; `typeError` covers
`float()` of a non-numeric non-string and iteration over non-sequences;
`valueError` covers `float()` of a non-numeric string. -/
inductive PyErr where
  | keyError : PyErr
  | attributeError : PyErr
  | typeError : PyErr
  | valueError : PyErr
deriving DecidableEq

mutual

/-- Size of a `JValue` (fuel for the renderer). -/
def jsize : JValue → Nat
  | .null => 1
  | .bool _ => 1
  | .num _ _ => 1
  | .str _ => 1
  | .arr items => jsizeItems items + 1
  | .obj fields => jsizeFields fields + 1

def jsizeItems : List JValue → Nat
  | [] => 0
  | v :: rest => jsize v + jsizeItems rest

def jsizeFields : List (PyStr × JValue) → Nat
  | [] => 0
  | (_, v) :: rest => jsize v + jsizeFields rest

end

/-- Python `str()` of a `JValue`, approximated: exact on strings (the only
case any claim exercises); numbers, booleans, `None` and containers get a
simple canonical rendering (fuel-bounded by the term size). -/
def render_jvalue : Nat → JValue → PyStr
  | 0, _ => []
  | fuel+1, v =>
    match v with
    | .null => "None".toList
    | .bool true => "True".toList
    | .bool false => "False".toList
    | .num m e => (toString m).toList ++ (if e = 0 then [] else 'e' :: (toString e).toList)
    | .str s => s
    | .arr items =>
      '[' :: List.intercalate ", ".toList (items.map (render_jvalue fuel)) ++ [']']
    | .obj fields =>
      '\x7b' :: List.intercalate ", ".toList
        (fields.map (fun p => p.1 ++ ": ".toList ++ render_jvalue fuel p.2)) ++ ['\x7d']

/-- Python `f"{v}"`. -/
def py_str_of (v : JValue) : PyStr := render_jvalue (jsize v + 1) v

/-- Python `float(s)` on a string: strip, optional sign, decimal digits
with optional fraction and exponent (`inf`/`nan` spellings are not
modelled; no modelled datum uses them). -/
def parse_float_str (l : PyStr) : Option ℚ :=
  let l := pystrip l
  let (neg, l1) : Bool × PyStr :=
    match l with
    | '-' :: r => (true, r)
    | '+' :: r => (false, r)
    | _ => (false, l)
  let ds := l1.takeWhile Char.isDigit
  let l2 := l1.drop ds.length
  let (fds, l3) : PyStr × PyStr :=
    match l2 with
    | '.' :: r =>
      let f := r.takeWhile Char.isDigit
      (f, r.drop f.length)
    | _ => ([], l2)
  if ds.isEmpty ∧ fds.isEmpty then none
  else
    let (eok, ev, l4) : Bool × Int × PyStr :=
      match l3 with
      | 'e' :: r | 'E' :: r =>
        let (eneg, r1) : Bool × PyStr :=
          match r with
          | '-' :: r2 => (true, r2)
          | '+' :: r2 => (false, r2)
          | _ => (false, r)
        let eds := r1.takeWhile Char.isDigit
        if eds.isEmpty then (false, 0, r1)
        else (true, (if eneg then -(digitsToNat eds : Int) else (digitsToNat eds : Int)),
              r1.drop eds.length)
      | _ => (true, 0, l3)
    if ¬ eok ∨ ¬ l4.isEmpty then none
    else
      let mag : ℚ :=
        ((digitsToNat ds * 10 ^ fds.length + digitsToNat fds : ℕ) : ℚ)
          / 10 ^ fds.length * 10 ^ ev
      some (if neg then -mag else mag)

/-- Python `float(v)` of a JSON value: numbers and booleans convert,
numeric strings are parsed (`ValueError` otherwise), anything else is a
`TypeError` — which, unlike `ValueError`, the validator does not catch. -/
def py_float (v : JValue) : Except PyErr ℚ :=
  match v with
  | .num m e => .ok (jnum_val m e)
  | .bool b => .ok (if b then 1 else 0)
  | .str s => match parse_float_str s with
    | some q => .ok q
    | none => .error .valueError
  | _ => .error .typeError

/-! ## Planner (`src/agents/planner.py`)

The service calls themselves are factored out: `assess_complexity` and
`generate_tasks` take the raw response text of their one service call as
a parameter and model everything the source does with it. -/

/-- `ResearchTask`.  Field values are kept as the `JValue`s the Python
code stores: `dataclass` performs no runtime type checking, so whatever
`t.get(...)` returned lands in the field unchanged. -/
structure ResearchTask where
  id : JValue
  description : JValue
  agent : JValue
  tools : JValue
  dependencies : JValue
  priority : JValue

/-- The ceiling lookup `{"simple": 2, "moderate": 4, "complex": 6}[complexity]`;
`none` models the uncaught `KeyError` on any other value. -/
def task_ceiling (complexity : JValue) : Option Nat :=
  match complexity with
  | .str s =>
    if s = "simple".toList then some 2
    else if s = "moderate".toList then some 4
    else if s = "complex".toList then some 6
    else none
  | _ => none

/-- The fallback task built when parsing the task response fails. -/
def fallback_task (query : PyStr) : ResearchTask :=
  ⟨.num 1 0, .str ("Research: ".toList ++ query), .str "researcher".toList,
   .arr [.str "web_search".toList], .arr [], .str "high".toList⟩

/-- One `ResearchTask(...)` construction from a parsed task dict; `n` is
`len(tasks)` at that point (used for the default id `len(tasks) + 1`). -/
def mk_task (kv : List (PyStr × JValue)) (n : Nat) : ResearchTask :=
  ⟨jGetD kv "id".toList (.num (n + 1 : Nat) 0),
   jGetD kv "description".toList (.str []),
   jGetD kv "agent".toList (.str "researcher".toList),
   jGetD kv "tools".toList (.arr []),
   jGetD kv "dependencies".toList (.arr []),
   jGetD kv "priority".toList (.str "medium".toList)⟩

/-- The `for t in data.get("tasks", [])` loop body: each entry must be a
dict (`.get` on anything else raises `AttributeError`, which
`_generate_tasks` does not catch); dependency ids and all other fields
are taken verbatim, with the source's defaults. -/
def build_tasks : List JValue → Nat → Except PyErr (List ResearchTask)
  | [], _ => .ok []
  | .obj kv :: rest, n => (build_tasks rest (n + 1)).map (fun ts => mk_task kv n :: ts)
  | _ :: _, _ => .error .attributeError

/-- `PlannerAgent._generate_tasks`, given the complexity value and the
text of the one service response.  The ceiling lookup happens first (its
`KeyError` is uncaught); a `json.JSONDecodeError` from extraction is
caught and yields the single fallback task; a successfully parsed
response is consumed verbatim by `build_tasks`. -/
def generate_tasks (complexity : JValue) (query : PyStr) (response : PyStr) :
    Except PyErr (List ResearchTask) :=
  match task_ceiling complexity with
  | none => .error .keyError
  | some _ =>
    match extract_payload response with
    | none => .ok [fallback_task query]
    | some (.obj kvs) =>
      match jGetD kvs "tasks".toList (.arr []) with
      | .arr ts => build_tasks ts 0
      | .str s => if s.isEmpty then .ok [] else .error .attributeError
      | .obj kvs2 => if kvs2.isEmpty then .ok [] else .error .attributeError
      | _ => .error .typeError
    | some _ => .error .attributeError

/-- `PlannerAgent._assess_complexity`, given the text of its one service
response: on extraction failure default to `"moderate"`; on success take
`data.get("complexity", "moderate")` unvalidated. -/
def assess_complexity (response : PyStr) : Except PyErr JValue :=
  match extract_payload response with
  | none => .ok (.str "moderate".toList)
  | some (.obj kvs) => .ok (jGetD kvs "complexity".toList (.str "moderate".toList))
  | some _ => .error .attributeError

/-- `PlannerAgent.plan`, restricted to the two service-dependent steps the
claims are about: complexity assessment feeding task generation. -/
def planner_plan (complexity_response tasks_response query : PyStr) :
    Except PyErr (JValue × List ResearchTask) :=
  (assess_complexity complexity_response).bind (fun c =>
    (generate_tasks c query tasks_response).map (fun ts => (c, ts)))

/-! ## Researcher (`src/agents/researcher.py`) -/

/-- One raw search result as returned by the web-search tool (the fields
`_extract_findings` reads). -/
structure SearchResult where
  title : PyStr
  source : PyStr
  url : PyStr
  snippet : PyStr

/-- `ResearchFinding`.  As with `ResearchTask`, field values are the
`JValue`s Python stores without type checking. -/
structure ResearchFinding where
  title : JValue
  content : JValue
  source : JValue
  url : JValue
  relevance : JValue
  key_points : JValue

/-- The numbered search-result block `[i] title\nSource: ...\nURL: ...\nContent: ...\n`
built by `_extract_findings` (1-based `i`). -/
def format_search_result (i : Nat) (r : SearchResult) : PyStr :=
  ('[' :: (toString i).toList ++ "] ".toList) ++ r.title ++ "\nSource: ".toList ++ r.source
    ++ "\nURL: ".toList ++ r.url ++ "\nContent: ".toList ++ r.snippet ++ "\n".toList

/-- `"\n".join(formatted_results)`. -/
def format_search_results (rs : List SearchResult) : PyStr :=
  List.intercalate "\n".toList ((List.range rs.length).zip rs |>.map
    (fun p => format_search_result (p.1 + 1) p.2))

/-- The `_extract_findings` prompt (f-string of `researcher.py`). -/
def extract_findings_prompt (query : PyStr) (rs : List SearchResult) : PyStr :=
  "\nResearch query: ".toList ++ query ++
  "\n\nSearch results:\n".toList ++ format_search_results rs ++
  ("\n\nExtract the most relevant and important findings from these search results.\nFor each finding:\n1. Summarize the key information\n2. Extract 2-4 key points\n3. Assess relevance (High/Medium/Low)\n4. Cite the source\n\nFocus on:\n- Direct answers to the query\n- Important context and background\n- Different perspectives if available\n- Recent developments\n\nYou MUST respond with ONLY valid JSON in this exact format (no other text):\n\x7b\n    \"findings\": [\n        \x7b\n            \"title\": \"Finding title\",\n            \"content\": \"2-3 sentence summary\",\n            \"source\": \"source name\",\n            \"url\": \"source url\",\n            \"relevance\": \"High\",\n            \"key_points\": [\"point 1\", \"point 2\", \"point 3\"]\n        \x7d\n    ]\n\x7d\n\nInclude 3-5 most relevant findings.\n").toList

/-- One `ResearchFinding(...)` construction from a parsed finding dict. -/
def mk_finding (kv : List (PyStr × JValue)) : ResearchFinding :=
  ⟨jGetD kv "title".toList (.str "Untitled".toList),
   jGetD kv "content".toList (.str []),
   jGetD kv "source".toList (.str "Unknown".toList),
   jGetD kv "url".toList (.str []),
   jGetD kv "relevance".toList (.str "Medium".toList),
   jGetD kv "key_points".toList (.arr [])⟩

/-- The `for f in data.get("findings", [])` loop: a non-dict entry raises
`AttributeError` inside the `try`, which the blanket `except Exception`
turns into an empty result (`none` here). -/
def build_findings : List JValue → Option (List ResearchFinding)
  | [] => some []
  | .obj kv :: rest => (build_findings rest).map (fun fs => mk_finding kv :: fs)
  | _ :: _ => none

/-- Response processing of `_extract_findings`: extraction failure, a
missing/ill-shaped `"findings"` entry, or any exception inside the `try`
all collapse to `[]` (the source catches `json.JSONDecodeError` and then
any `Exception`); only a parsed dict with a `"findings"` list of dicts
produces findings, verbatim. -/
def extract_findings_payload (response : PyStr) : List ResearchFinding :=
  match extract_payload response with
  | none => []
  | some (.obj kvs) =>
    match jGet kvs "findings".toList with
    | none => []
    | some (.arr fs) => (build_findings fs).getD []
    | some _ => []
  | some _ => []

/-- `ResearcherAgent._extract_findings`: given the service oracle, the
agent's conversation history, the query and the raw search results.
Returns the findings, the number of service invocations made (`0` or
`1`), and the updated history. -/
def extract_findings (svc : LlmService) (history : List ChatMessage)
    (query : PyStr) (search_results : List SearchResult) :
    List ResearchFinding × Nat × List ChatMessage :=
  if search_results.isEmpty then ([], 0, history)
  else
    let (response, h1) := call_llm svc history (extract_findings_prompt query search_results)
    (extract_findings_payload response, 1, h1)

/-- `f.relevance == "High"` (Python equality: false for non-strings). -/
def relevance_is_high (f : ResearchFinding) : Bool :=
  match f.relevance with
  | .str s => s = "High".toList
  | _ => false

/-- `ResearcherAgent._assess_confidence`: deterministic, no service call. -/
def assess_confidence (findings : List ResearchFinding) : PyStr :=
  if findings.isEmpty then "Low".toList
  else if 3 ≤ findings.length ∧ 2 ≤ (findings.filter relevance_is_high).length then
    "High".toList
  else if 2 ≤ findings.length then "Medium".toList
  else "Low".toList

/-- The confidence rule exactly as the specification words it (§4.3):
`High` if count ≥ 3 and High-relevance count ≥ 2; `Medium` if count ≥ 2;
else `Low`. -/
def spec_assess_confidence (findings : List ResearchFinding) : PyStr :=
  if 3 ≤ findings.length ∧ 2 ≤ (findings.filter relevance_is_high).length then
    "High".toList
  else if 2 ≤ findings.length then "Medium".toList
  else "Low".toList

/-! ## Validator (`src/agents/validator.py`) -/

/-- `SourceEvaluation` (credibility score already through `float()`). -/
structure SourceEvaluation where
  source : JValue
  credibility_score : ℚ
  source_type : JValue
  strengths : JValue
  concerns : JValue

/-- `ValidationResult`. -/
structure ValidationResult where
  is_valid : JValue
  credibility_score : ℚ
  issues : JValue
  warnings : JValue
  reasoning : JValue

/-- The default low-credibility evaluation `_evaluate_source` returns when
extraction fails. -/
def source_eval_fallback (source : JValue) : SourceEvaluation :=
  ⟨source, 3/10, .str "Unknown".toList, .arr [],
   .arr [.str "Unable to verify source credibility".toList]⟩

/-- The neutral result `_validate_content` returns when extraction fails. -/
def content_validation_fallback : ValidationResult :=
  ⟨.bool true, 1/2, .arr [], .arr [.str "Unable to fully validate content".toList], .str []⟩

/-- Response processing of `_evaluate_source`: the `except` catches
`json.JSONDecodeError` and `ValueError` (the latter raised by `float()`
on a non-numeric string) and substitutes the 0.3 fallback; `float()` of
`None`/lists (`TypeError`) and `.get` on a non-dict (`AttributeError`)
are uncaught. -/
def evaluate_source_result (source : JValue) (response : PyStr) :
    Except PyErr SourceEvaluation :=
  match extract_payload response with
  | none => .ok (source_eval_fallback source)
  | some (.obj kvs) =>
    match py_float (jGetD kvs "credibility_score".toList (.num 5 (-1))) with
    | .ok q =>
      .ok ⟨source, q, jGetD kvs "source_type".toList (.str "Unknown".toList),
           jGetD kvs "strengths".toList (.arr []), jGetD kvs "concerns".toList (.arr [])⟩
    | .error .valueError => .ok (source_eval_fallback source)
    | .error err => .error err
  | some _ => .error .attributeError

/-- Response processing of `_validate_content` (same failure handling,
neutral 0.5 fallback). -/
def validate_content_result (response : PyStr) : Except PyErr ValidationResult :=
  match extract_payload response with
  | none => .ok content_validation_fallback
  | some (.obj kvs) =>
    match py_float (jGetD kvs "credibility_score".toList (.num 5 (-1))) with
    | .ok q =>
      .ok ⟨jGetD kvs "is_valid".toList (.bool true), q,
           jGetD kvs "issues".toList (.arr []), jGetD kvs "warnings".toList (.arr []),
           jGetD kvs "reasoning".toList (.str [])⟩
    | .error .valueError => .ok content_validation_fallback
    | .error err => .error err
  | some _ => .error .attributeError

/-- The `_evaluate_source` prompt (f-string of `validator.py`). -/
def evaluate_source_prompt (source url : JValue) : PyStr :=
  "\nEvaluate the credibility of this source:\n\nSource: ".toList ++ py_str_of source ++
  "\nURL: ".toList ++ py_str_of url ++
  ("\n\nAssess:\n1. Source type (Academic, Government, News, Commercial, Blog, Social Media, Unknown)\n2. Overall credibility (0.0 to 1.0 scale)\n3. Strengths (2-3 points about why this source might be trustworthy)\n4. Concerns (1-3 points about potential issues or biases)\n\nConsider:\n- Is this a peer-reviewed academic source? (very high credibility)\n- Is this a government or official organization? (high credibility)\n- Is this established, reputable news? (medium-high credibility)\n- Is this commercial or promotional content? (lower credibility)\n- Are there potential conflicts of interest?\n\nRespond in JSON format only:\n\x7b\n    \"source_type\": \"Academic|Government|News|Commercial|Blog|Unknown\",\n    \"credibility_score\": 0.85,\n    \"strengths\": [\"point 1\", \"point 2\"],\n    \"concerns\": [\"concern 1\"]\n\x7d\n").toList

/-- `chr(10).join(f"- {point}" for point in key_points)`.  Iterating a
string iterates its one-character substrings; iterating any other
non-sequence would raise `TypeError` in Python (not exercised by any
claim, rendered as a single bullet here). -/
def join_key_points (key_points : JValue) : PyStr :=
  match key_points with
  | .arr ps => List.intercalate "\n".toList (ps.map (fun p => "- ".toList ++ py_str_of p))
  | .str s => List.intercalate "\n".toList (s.map (fun ch => "- ".toList ++ [ch]))
  | v => "- ".toList ++ py_str_of v

/-- The `_validate_content` prompt (f-string of `validator.py`). -/
def validate_content_prompt (content key_points source : JValue) : PyStr :=
  "\nValidate this content for accuracy and reliability:\n\nContent: ".toList ++
  py_str_of content ++
  "\n\nKey Points:\n".toList ++ join_key_points key_points ++
  "\n\nSource: ".toList ++ py_str_of source ++
  ("\n\nAssess:\n1. Are there any obvious factual errors or inconsistencies?\n2. Does the content make exaggerated or unsupported claims?\n3. Is the language objective or does it show clear bias?\n4. Are the key points accurately extracted?\n5. Overall content credibility (0.0 to 1.0)\n\nRespond in JSON format only:\n\x7b\n    \"is_valid\": true,\n    \"credibility_score\": 0.8,\n    \"issues\": [\"any serious problems\"],\n    \"warnings\": [\"minor concerns\"],\n    \"reasoning\": \"brief explanation of assessment\"\n\x7d\n").toList

/-- One entry of `validate_findings`' result list (the dict the source
builds per finding; combined credibility 0.6·source + 0.4·content). -/
structure ValidatedFinding where
  original_finding : ResearchFinding
  source_evaluation : SourceEvaluation
  content_validation : ValidationResult
  overall_credibility : ℚ

/-- `ValidatorAgent.validate_findings`: sequentially evaluate each
finding's source and content through `call_llm` (threading the agent's
conversation history), combining the two credibility scores.  Uncaught
exceptions from the per-finding processing abort the whole call. -/
def validate_findings (svc : LlmService) :
    List ChatMessage → List ResearchFinding →
      Except PyErr (List ValidatedFinding × List ChatMessage)
  | history, [] => .ok ([], history)
  | history, f :: rest =>
    let c1 := call_llm svc history (evaluate_source_prompt f.source f.url)
    match evaluate_source_result f.source c1.1 with
    | .error e => .error e
    | .ok se =>
      let c2 := call_llm svc c1.2 (validate_content_prompt f.content f.key_points f.source)
      match validate_content_result c2.1 with
      | .error e => .error e
      | .ok cv =>
        match validate_findings svc c2.2 rest with
        | .error e => .error e
        | .ok p =>
          .ok (⟨f, se, cv,
                se.credibility_score * (6/10) + cv.credibility_score * (4/10)⟩ :: p.1, p.2)

/-! ## Orchestrator (`src/orchestrator/orchestrator.py`) -/

/-- The researcher state the orchestrator mutates (`max_searches`). -/
structure ResearcherState where
  max_searches : Nat

/-- The orchestrator state relevant to the claims. -/
structure Orchestrator where
  use_validation : Bool
  researcher : ResearcherState
  has_validator : Bool

/-- `ResearchOrchestrator.__init__`: the configured `max_searches` is
passed to the researcher; a validator exists iff validation is enabled. -/
def orchestrator_init (use_validation : Bool) (max_searches : Nat) : Orchestrator :=
  ⟨use_validation, ⟨max_searches⟩, use_validation⟩

/-- The depth adjustment at the top of `ResearchOrchestrator.research`:
`depth == "quick"` sets the researcher's `max_searches` to 1, any other
depth sets it to the literal 3. -/
def research_set_depth (o : Orchestrator) (depth : PyStr) : Orchestrator :=
  if depth = "quick".toList then ⟨o.use_validation, ⟨1⟩, o.has_validator⟩
  else ⟨o.use_validation, ⟨3⟩, o.has_validator⟩

/-- The complete result object of one `research` run (contents immaterial
to the claims about `research_parallel`). -/
structure OrchestrationResult where
  query : PyStr

/-- `ResearchOrchestrator.research_parallel` after
`asyncio.gather(*tasks, return_exceptions=True)`: the gathered list holds,
per query and in order, either the run's `OrchestrationResult` or the
exception it raised.  The source keeps the `isinstance(r,
OrchestrationResult)` elements and reports `len(results) - len(valid)`
failures. -/
def research_parallel (results : List (Except PyErr OrchestrationResult)) :
    List OrchestrationResult × Nat :=
  let valid := results.filterMap (fun r =>
    match r with
    | .ok v => some v
    | .error _ => none)
  (valid, results.length - valid.length)

/-! ## Concrete inputs used by counterexamples and witnesses -/

/-- A response that is not JSON under any cleanup. -/
def bad_response : PyStr := "oops".toList

/-- A well-formed complexity response carrying a tier outside
`{simple, moderate, complex}`. -/
def complexity_hard_response : PyStr := "\x7b\"complexity\": \"hard\"\x7d".toList

/-- A well-formed task response: three tasks, one carrying the dangling
dependency id 99. -/
def tasks_response_dangling : PyStr :=
  "\x7b\"tasks\": [\x7b\"id\": 1, \"dependencies\": [99]\x7d, \x7b\"id\": 2\x7d, \x7b\"id\": 3\x7d]\x7d".toList

/-- A well-formed task response whose task list is empty. -/
def empty_tasks_response : PyStr := "\x7b\"tasks\": []\x7d".toList

/-- A finding whose relevance is `High` (witness data). -/
def high_finding : ResearchFinding :=
  ⟨.str "t".toList, .str "c".toList, .str "s".toList, .str "u".toList,
   .str "High".toList, .arr []⟩

/-- A single raw search result (witness data). -/
def one_search_result : SearchResult :=
  ⟨"t".toList, "s".toList, "u".toList, "sn".toList⟩

/-- Whether `pat` occurs as a contiguous block anywhere in the string. -/
def occurs_within (pat : PyStr) : PyStr → Bool
  | [] => pat.isEmpty
  | c :: rest => pat.isPrefixOf (c :: rest) || occurs_within pat rest

/-- A finding whose source carries the marker `XYZ` (counterexample data
for the history-dependence of validation). -/
def finding_xyz : ResearchFinding :=
  ⟨.str "t1".toList, .str "c1".toList, .str "XYZ".toList, .str "u1".toList,
   .str "High".toList, .arr []⟩

/-- The same finding with a marker-free source. -/
def finding_aaa : ResearchFinding :=
  ⟨.str "t1".toList, .str "c1".toList, .str "AAA".toList, .str "u1".toList,
   .str "High".toList, .arr []⟩

/-- A second, fixed finding validated after the first one. -/
def finding_b : ResearchFinding :=
  ⟨.str "t2".toList, .str "c2".toList, .str "S2".toList, .str "u2".toList,
   .str "High".toList, .arr []⟩

/-- A well-formed source/content evaluation response. -/
def good_score_response : PyStr := "\x7b\"credibility_score\": 0.9\x7d".toList

/-- A deterministic service whose answer depends on whether the marker
`XYZ` occurs anywhere in the request messages — in particular in the
conversation-history messages that `call_llm` prepends. -/
def marker_oracle : LlmService := fun messages =>
  if messages.any (fun m => occurs_within "XYZ".toList m.content) then bad_response
  else good_score_response

/-- A payload wrapped in a `"```json"` fenced block, as a model response
would carry it. -/
def wrap_json (P : PyStr) : PyStr := "```json\n".toList ++ P ++ "\n```".toList

/-- A payload wrapped in a plain `"```"` fenced block. -/
def wrap_fence (P : PyStr) : PyStr := "```\n".toList ++ P ++ "\n```".toList

/-! ## Claim theorems -/

/-- Claim C3.  For every batch passed to `research_parallel`, a run that
fails with an exception is excluded from the returned list and counted as
a failure, and sibling runs are unaffected: with `N` gathered outcomes of
which exactly `k` are exceptions, the returned list has length `N - k`
and the reported failure count is `k`.  (`research_parallel` is a total
function — no exception escapes the batch call — and each surviving entry
is one of the successful outcomes.) -/
theorem research_parallel_isolates_failures
    (results : List (Except PyErr OrchestrationResult)) :
    (research_parallel results).1.length
        = results.length
            - results.countP (fun r => match r with | .error _ => true | .ok _ => false) ∧
    (research_parallel results).2
        = results.countP (fun r => match r with | .error _ => true | .ok _ => false) := by
  have hlen : ∀ rs : List (Except PyErr OrchestrationResult),
      (research_parallel rs).1.length
        = rs.countP (fun r => match r with | .ok _ => true | .error _ => false) := by
    intro rs
    simp only [research_parallel]
    induction rs with
    | nil => rfl
    | cons r rest ih =>
      cases r with
      | ok v => simp [List.countP_cons, ih]
      | error e => simp [List.countP_cons, ih]
  have hsum : ∀ rs : List (Except PyErr OrchestrationResult),
      rs.countP (fun r => match r with | .ok _ => true | .error _ => false)
        + rs.countP (fun r => match r with | .error _ => true | .ok _ => false)
        = rs.length := by
    intro rs
    induction rs with
    | nil => rfl
    | cons r rest ih =>
      cases r with
      | ok v => simp only [List.countP_cons, List.length_cons]; simp; omega
      | error e => simp only [List.countP_cons, List.length_cons]; simp; omega
  have h1 := hlen results
  have h2 := hsum results
  have h3 : (research_parallel results).2
      = results.length - (research_parallel results).1.length := rfl
  refine ⟨by omega, by omega⟩

/-- Claim C4.  Whenever extraction of the model response fails in
`_evaluate_source`, the returned source credibility equals 0.3 (in
particular it is below 0.5) with the recorded diagnostic concern; whenever
extraction fails in `_validate_content`, the returned content credibility
equals 0.5. -/
theorem validator_fail_safe (source : JValue) (response : PyStr)
    (hfail : extract_payload response = none) :
    evaluate_source_result source response = .ok (source_eval_fallback source) ∧
    (source_eval_fallback source).credibility_score = 3/10 ∧
    (3/10 : ℚ) < 1/2 ∧
    (source_eval_fallback source).concerns
        = .arr [.str "Unable to verify source credibility".toList] ∧
    validate_content_result response = .ok content_validation_fallback ∧
    content_validation_fallback.credibility_score = 1/2 := by
  refine ⟨?_, rfl, by norm_num, rfl, ?_, rfl⟩
  · simp [evaluate_source_result, hfail]
  · simp [validate_content_result, hfail]

/-- Witness for C4 at a concrete non-JSON response. -/
theorem validator_fail_safe_witness :
    extract_payload bad_response = none ∧
    (evaluate_source_result (.str ['x']) bad_response
        = .ok (source_eval_fallback (.str ['x'])) ∧
     (source_eval_fallback (.str ['x'])).credibility_score = 3/10 ∧
     (3/10 : ℚ) < 1/2 ∧
     (source_eval_fallback (.str ['x'])).concerns
        = .arr [.str "Unable to verify source credibility".toList] ∧
     validate_content_result bad_response = .ok content_validation_fallback ∧
     content_validation_fallback.credibility_score = 1/2) :=
  ⟨rfl, validator_fail_safe (.str ['x']) bad_response rfl⟩

/-- Claim C7.  `_extract_findings` with an empty raw-results list returns
`[]` and makes no service invocation (count 0, history untouched); on
extraction failure of its one service response it returns `[]` — an
empty successful result, not an error. -/
theorem extract_findings_guards (svc : LlmService) (history : List ChatMessage)
    (query : PyStr) :
    extract_findings svc history query [] = ([], 0, history) ∧
    (∀ rs : List SearchResult,
      rs ≠ [] →
      extract_payload (call_llm svc history (extract_findings_prompt query rs)).1 = none →
      extract_findings svc history query rs
        = ([], 1, (call_llm svc history (extract_findings_prompt query rs)).2)) := by
  refine ⟨rfl, ?_⟩
  intro rs hne hfail
  have hb : rs.isEmpty = false := by
    cases rs with
    | nil => exact absurd rfl hne
    | cons a t => rfl
  simp only [extract_findings, hb, Bool.false_eq_true, if_false]
  simp [extract_findings_payload, hfail]

/-- Witness for C7: a service that answers non-JSON, one search result. -/
theorem extract_findings_guards_witness :
    extract_findings (fun _ => bad_response) [] ['q'] [] = ([], 0, []) ∧
    extract_findings (fun _ => bad_response) [] ['q'] [one_search_result]
      = ([], 1,
         (call_llm (fun _ => bad_response) [] (extract_findings_prompt ['q'] [one_search_result])).2) :=
  ⟨(extract_findings_guards (fun _ => bad_response) [] ['q']).1,
   (extract_findings_guards (fun _ => bad_response) [] ['q']).2 [one_search_result]
     (by simp) rfl⟩

/-- Claim C9.  `_assess_confidence` is a deterministic function of the
findings list (it is defined with no service oracle): it agrees everywhere
with the specification's rule — `High` iff count ≥ 3 and High-relevance
count ≥ 2, else `Medium` iff count ≥ 2, else `Low` — and in particular 4
High-relevance findings yield `High`, 0 findings yield `Low`, and exactly
2 findings of any relevance yield `Medium` (hence at least `Medium`). -/
theorem assess_confidence_rules :
    (∀ fs, assess_confidence fs = spec_assess_confidence fs) ∧
    (∀ fs, fs.length = 4 → (∀ f ∈ fs, relevance_is_high f) →
      assess_confidence fs = "High".toList) ∧
    assess_confidence [] = "Low".toList ∧
    (∀ fs, fs.length = 2 → assess_confidence fs = "Medium".toList) := by
  refine ⟨?_, ?_, rfl, ?_⟩
  · intro fs
    cases fs with
    | nil => simp [assess_confidence, spec_assess_confidence]
    | cons f t => simp [assess_confidence, spec_assess_confidence]
  · intro fs hlen hall
    have hne : fs.isEmpty = false := by
      cases fs with
      | nil => simp at hlen
      | cons a t => rfl
    have hfilter : fs.filter relevance_is_high = fs := List.filter_eq_self.mpr hall
    have hcond : 3 ≤ fs.length ∧ 2 ≤ (fs.filter relevance_is_high).length := by
      rw [hfilter, hlen]; omega
    simp [assess_confidence, hne, hcond]
  · intro fs hlen
    have hne : fs.isEmpty = false := by
      cases fs with
      | nil => simp at hlen
      | cons a t => rfl
    have h3 : ¬ (3 ≤ fs.length ∧ 2 ≤ (fs.filter relevance_is_high).length) := by
      rw [hlen]; omega
    simp [assess_confidence, hne, h3, hlen]

/-- Witness for C9: four High-relevance findings give `High`, two
findings give `Medium`. -/
theorem assess_confidence_rules_witness :
    assess_confidence [high_finding, high_finding, high_finding, high_finding]
      = "High".toList ∧
    assess_confidence [high_finding, high_finding] = "Medium".toList :=
  ⟨assess_confidence_rules.2.1 _ rfl (by decide),
   assess_confidence_rules.2.2.2 _ rfl⟩

/-- Claim C10.  `_assess_complexity` can return a tier outside
`{simple, moderate, complex}` (a successfully parsed response's
complexity value is taken unvalidated), and for every such tier
`_generate_tasks` hits an uncaught `KeyError` at the task-ceiling lookup
before anything else; hence for some service output (for example
`{"complexity": "hard"}`) the plan operation terminates abnormally
instead of returning a plan, whatever the task response is. -/
theorem planner_unvalidated_tier_key_error :
    (∀ (c : JValue) (query response : PyStr),
      task_ceiling c = none → generate_tasks c query response = .error .keyError) ∧
    assess_complexity complexity_hard_response = .ok (.str "hard".toList) ∧
    task_ceiling (.str "hard".toList) = none ∧
    (∀ (tasks_response query : PyStr),
      planner_plan complexity_hard_response tasks_response query = .error .keyError) := by
  refine ⟨?_, rfl, rfl, ?_⟩
  · intro c q r h
    simp [generate_tasks, h]
  · intro r q
    rfl

/-- Witness for C10 at the tier `"hard"`. -/
theorem planner_unvalidated_tier_key_error_witness :
    generate_tasks (.str "hard".toList) ['q'] bad_response = .error .keyError ∧
    planner_plan complexity_hard_response bad_response ['q'] = .error .keyError :=
  ⟨planner_unvalidated_tier_key_error.1 (.str "hard".toList) ['q'] bad_response rfl,
   planner_unvalidated_tier_key_error.2.2.2 bad_response ['q']⟩

/-- Claim C5, counterexample.  The claim says an empty generated task
list also triggers the single fallback task and that a returned plan is
never empty; but on the successfully parsed response `{"tasks": []}` the
planner returns an empty plan (and not the fallback). -/
theorem planner_empty_plan_counterexample :
    generate_tasks (.str "moderate".toList) ['q'] empty_tasks_response = .ok [] ∧
    (∀ query : PyStr, [fallback_task query] ≠ ([] : List ResearchTask)) := by
  exact ⟨rfl, fun q => by simp⟩

/-- Claim C5, amended.  The single-fallback path triggers exactly on
extraction failure (then the plan is the one fallback task covering the
full query, assigned to the research role, with no dependencies); a
successfully parsed response with an empty or missing `"tasks"` list
yields an empty plan. -/
theorem planner_fallback_on_decode_failure :
    (∀ (c : JValue) (k : Nat) (query response : PyStr),
      task_ceiling c = some k → extract_payload response = none →
      generate_tasks c query response = .ok [fallback_task query] ∧
      (fallback_task query).description = .str ("Research: ".toList ++ query) ∧
      (fallback_task query).agent = .str "researcher".toList ∧
      (fallback_task query).dependencies = .arr []) ∧
    (∀ (c : JValue) (k : Nat) (query response : PyStr) (kvs : List (PyStr × JValue)),
      task_ceiling c = some k → extract_payload response = some (.obj kvs) →
      jGetD kvs "tasks".toList (.arr []) = .arr [] →
      generate_tasks c query response = .ok []) := by
  constructor
  · intro c k q r hc hfail
    refine ⟨?_, rfl, rfl, rfl⟩
    simp [generate_tasks, hc, hfail]
  · intro c k q r kvs hc hparse htasks
    simp only [generate_tasks, hc, hparse]
    rw [htasks]
    rfl

/-- Witness for the amended C5: a non-JSON response yields the fallback
plan, `{"tasks": []}` yields the empty plan. -/
theorem planner_fallback_on_decode_failure_witness :
    generate_tasks (.str "simple".toList) ['q'] bad_response
      = .ok [fallback_task ['q']] ∧
    generate_tasks (.str "complex".toList) ['q'] empty_tasks_response = .ok [] :=
  ⟨(planner_fallback_on_decode_failure.1 (.str "simple".toList) 2 ['q'] bad_response
      rfl rfl).1,
   planner_fallback_on_decode_failure.2 (.str "complex".toList) 6 ['q']
     empty_tasks_response [("tasks".toList, .arr [])] rfl rfl rfl⟩

/-- Claim C6, counterexample.  The claim says `depth="comprehensive"` uses
the `max_searches` configured at construction; but with the orchestrator
configured at `max_searches = 2`, a comprehensive research call sets the
researcher's `max_searches` to the literal 3. -/
theorem research_depth_counterexample :
    (orchestrator_init true 2).researcher.max_searches = 2 ∧
    (research_set_depth (orchestrator_init true 2) "comprehensive".toList).researcher.max_searches
      = 3 ∧
    (3 : Nat) ≠ 2 := by
  refine ⟨rfl, ?_, by omega⟩
  rfl

/-- Claim C6, amended.  `depth="quick"` forces the researcher's
`max_searches` to 1; any other depth (including `"comprehensive"`) sets
it to the literal 3, overriding the value configured at construction —
the configured value is only in effect until the first research call, and
a comprehensive call agrees with the configuration only when that
configuration is 3. -/
theorem research_depth_amended (use_validation : Bool) (cfg : Nat) (depth : PyStr) :
    (orchestrator_init use_validation cfg).researcher.max_searches = cfg ∧
    (research_set_depth (orchestrator_init use_validation cfg) "quick".toList).researcher.max_searches
      = 1 ∧
    (depth ≠ "quick".toList →
      (research_set_depth (orchestrator_init use_validation cfg) depth).researcher.max_searches
        = 3) := by
  refine ⟨rfl, rfl, ?_⟩
  intro hne
  simp only [research_set_depth]
  rw [if_neg hne]

/-- Witness for the amended C6 at configuration 2 and depth `"quick"` /
`"comprehensive"`. -/
theorem research_depth_amended_witness :
    (orchestrator_init true 2).researcher.max_searches = 2 ∧
    (research_set_depth (orchestrator_init true 2) "quick".toList).researcher.max_searches = 1 ∧
    (research_set_depth (orchestrator_init true 2) "comprehensive".toList).researcher.max_searches
      = 3 :=
  ⟨(research_depth_amended true 2 "comprehensive".toList).1,
   (research_depth_amended true 2 "comprehensive".toList).2.1,
   (research_depth_amended true 2 "comprehensive".toList).2.2 (by decide)⟩

/-- Claim C1, counterexample.  On the successfully parsed task response
with three tasks under the `simple` tier (ceiling 2), task generation
returns all three tasks — exceeding the ceiling — and keeps the dangling
dependency id 99 verbatim, although no task of the plan has id 99. -/
theorem plan_validity_counterexample :
    task_ceiling (.str "simple".toList) = some 2 ∧
    (generate_tasks (.str "simple".toList) ['q'] tasks_response_dangling).map
        (fun ts => ts.length) = .ok 3 ∧
    ¬ (3 ≤ 2) ∧
    (generate_tasks (.str "simple".toList) ['q'] tasks_response_dangling).map
        (fun ts => ts.map (fun t => t.dependencies))
      = .ok [.arr [.num 99 0], .arr [], .arr []] ∧
    (generate_tasks (.str "simple".toList) ['q'] tasks_response_dangling).map
        (fun ts => ts.map (fun t => t.id))
      = .ok [.num 1 0, .num 2 0, .num 3 0] ∧
    JValue.num 99 0 ∉ [JValue.num 1 0, JValue.num 2 0, JValue.num 3 0] := by
  refine ⟨rfl, rfl, by omega, rfl, rfl, ?_⟩
  simp

/-- Claim C1, amended.  `_generate_tasks` performs neither dependency-id
validation nor count capping: on every successfully parsed response it
returns exactly one task per entry of the response's `"tasks"` list (so
the count is whatever the model sent, not bounded by the 2/4/6 ceiling,
which only parameterizes the prompt), and each task's dependency ids are
the entry's `"dependencies"` value taken verbatim (invalid ids are not
dropped). -/
theorem generate_tasks_verbatim :
    (∀ (ts : List JValue) (n : Nat) (l : List ResearchTask),
      build_tasks ts n = .ok l →
      l.length = ts.length ∧
      l.map (fun t => t.dependencies)
        = ts.map (fun t =>
            match t with
            | .obj kv => jGetD kv "dependencies".toList (.arr [])
            | _ => .arr [])) ∧
    (∀ (c : JValue) (k : Nat) (query response : PyStr)
        (kvs : List (PyStr × JValue)) (ts : List JValue),
      task_ceiling c = some k →
      extract_payload response = some (.obj kvs) →
      jGetD kvs "tasks".toList (.arr []) = .arr ts →
      generate_tasks c query response = build_tasks ts 0) := by
  constructor
  · intro ts
    induction ts with
    | nil =>
      intro n l h
      simp only [build_tasks] at h
      cases h
      exact ⟨rfl, rfl⟩
    | cons t rest ih =>
      intro n l h
      cases t with
      | obj kv =>
        simp only [build_tasks] at h
        cases hrest : build_tasks rest (n + 1) with
        | error e => rw [hrest] at h; simp [Except.map] at h
        | ok l' =>
          rw [hrest] at h
          simp only [Except.map] at h
          cases h
          have := ih (n + 1) l' hrest
          constructor
          · simp [this.1]
          · simp only [List.map_cons, this.2, mk_task]
      | null => simp [build_tasks] at h
      | bool b => simp [build_tasks] at h
      | num m e => simp [build_tasks] at h
      | str s => simp [build_tasks] at h
      | arr items => simp [build_tasks] at h
  · intro c k q r kvs ts hc hparse htasks
    simp only [generate_tasks, hc, hparse]
    rw [htasks]

/-- Witness for the amended C1 on the three-task response with the
dangling dependency id. -/
theorem generate_tasks_verbatim_witness :
    (([mk_task [("id".toList, JValue.num 1 0),
                ("dependencies".toList, JValue.arr [JValue.num 99 0])] 0]).length
        = ([JValue.obj [("id".toList, JValue.num 1 0),
                        ("dependencies".toList, JValue.arr [JValue.num 99 0])]]).length ∧
     ([mk_task [("id".toList, JValue.num 1 0),
                ("dependencies".toList, JValue.arr [JValue.num 99 0])] 0]).map
          (fun t => t.dependencies)
        = ([JValue.obj [("id".toList, JValue.num 1 0),
                        ("dependencies".toList, JValue.arr [JValue.num 99 0])]]).map
          (fun t => match t with
            | JValue.obj kv => jGetD kv "dependencies".toList (JValue.arr [])
            | _ => JValue.arr [])) ∧
    generate_tasks (JValue.str "simple".toList) ['q'] tasks_response_dangling
      = build_tasks [JValue.obj [("id".toList, JValue.num 1 0),
                                 ("dependencies".toList, JValue.arr [JValue.num 99 0])],
                     JValue.obj [("id".toList, JValue.num 2 0)],
                     JValue.obj [("id".toList, JValue.num 3 0)]] 0 :=
  ⟨generate_tasks_verbatim.1 _ 0 _ rfl,
   generate_tasks_verbatim.2 (JValue.str "simple".toList) 2 ['q'] tasks_response_dangling
     _ _ rfl rfl rfl⟩

/-! ## Lemmas about the cleanup primitives (for claim C2) -/

/-- `splitFuel` never returns the empty list. -/
theorem splitFuel_ne_nil (sep : List Char) (f : Nat) (l : List Char) :
    splitFuel sep f l ≠ [] := by
  induction f generalizing l with
  | zero => simp [splitFuel]
  | succ f ih =>
    cases l with
    | nil => simp [splitFuel]
    | cons c rest =>
      simp only [splitFuel]
      split
      · simp
      · split
        · simp
        · simp

/-- `splitFuel` does not depend on the fuel once it exceeds the length. -/
theorem splitFuel_congr (sep : List Char) :
    ∀ (f₁ : Nat) (l : List Char) (f₂ : Nat), l.length < f₁ → l.length < f₂ →
      splitFuel sep f₁ l = splitFuel sep f₂ l := by
  intro f₁
  induction f₁ with
  | zero => intro l f₂ h1 h2; omega
  | succ f ih =>
    intro l f₂ h1 h2
    cases l with
    | nil =>
      cases f₂ with
      | zero => omega
      | succ g => rfl
    | cons c rest =>
      cases f₂ with
      | zero => omega
      | succ g =>
        simp only [splitFuel]
        by_cases hp : sep.isPrefixOf (c :: rest) = true
        · rw [if_pos hp, if_pos hp]
          have hd : (List.drop (sep.length - 1) rest).length ≤ rest.length := by
            rw [List.length_drop]; omega
          have hlen : rest.length < f := by simp at h1; omega
          have hlen2 : rest.length < g := by simp at h2; omega
          rw [ih (List.drop (sep.length - 1) rest) g (by omega) (by omega)]
        · rw [if_neg hp, if_neg hp]
          have hlen : rest.length < f := by simp at h1; omega
          have hlen2 : rest.length < g := by simp at h2; omega
          rw [ih rest g hlen hlen2]

/-- Unfolding `pysplit` at a position where the separator does not match. -/
theorem pysplit_cons_no_match (sep : List Char) (c : Char) (l : List Char)
    (h : sep.isPrefixOf (c :: l) = false) :
    pysplit sep (c :: l)
      = match pysplit sep l with
        | [] => [[c]]
        | h :: t => (c :: h) :: t := by
  simp only [pysplit, List.length_cons, splitFuel, h]
  simp

/-- `pysplit` on a string that opens with the separator: an empty first
part, then the split of the remainder. -/
theorem pysplit_append_self (sep l : List Char) (s0 : Char) (st : List Char)
    (hsep : sep = s0 :: st) : pysplit sep (sep ++ l) = [] :: pysplit sep l := by
  have hpre : sep.isPrefixOf (sep ++ l) = true :=
    List.isPrefixOf_iff_prefix.mpr (List.prefix_append sep l)
  have hcons : sep ++ l = s0 :: (st ++ l) := by rw [hsep]; rfl
  have hfuel : (sep ++ l).length + 1 = (st ++ l).length + 1 + 1 := by
    rw [hsep]; simp
  rw [pysplit, hfuel]
  conv_lhs => rw [hcons]
  rw [splitFuel]
  rw [hcons] at hpre
  rw [if_pos hpre]
  have hdrop : List.drop (sep.length - 1) (st ++ l) = l := by
    have : sep.length - 1 = st.length := by rw [hsep]; simp
    rw [this, List.drop_left]
  rw [hdrop]
  have : splitFuel sep ((st ++ l).length + 1) l = splitFuel sep (l.length + 1) l := by
    apply splitFuel_congr
    · simp; omega
    · omega
  rw [this]
  rfl

/-- A separator longer than the string never occurs in it. -/
theorem pysplit_short (sep l : List Char) (h : l.length < sep.length) :
    pysplit sep l = [l] := by
  induction l with
  | nil => rfl
  | cons c rest ih =>
    have hp : sep.isPrefixOf (c :: rest) = false := by
      cases hb : sep.isPrefixOf (c :: rest)
      · rfl
      · have := (List.isPrefixOf_iff_prefix.mp hb).length_le
        simp at this h
        omega
    rw [pysplit_cons_no_match sep c rest hp,
        ih (by simp at h ⊢; omega)]

/-- Splitting `m ++ t` when the separator's first character does not
occur in `m`: `m` is glued onto the first part of the split of `t`. -/
theorem pysplit_skip (sep : List Char) (s0 : Char) (st m t : List Char)
    (hsep : sep = s0 :: st) (hm : s0 ∉ m) :
    pysplit sep (m ++ t)
      = match pysplit sep t with
        | [] => [m]
        | h :: tl => (m ++ h) :: tl := by
  subst hsep
  induction m with
  | nil =>
    simp only [List.nil_append]
    cases hsp : pysplit (s0 :: st) t with
    | nil => exact absurd hsp (splitFuel_ne_nil _ _ _)
    | cons h tl => simp [hsp]
  | cons x m' ih =>
    have hx : s0 ≠ x := fun he => hm (he ▸ List.mem_cons_self x m')
    have hm' : s0 ∉ m' := fun hmem => hm (List.mem_cons_of_mem _ hmem)
    have hbeq : (s0 == x) = false := beq_eq_false_iff_ne.mpr hx
    have hp : (s0 :: st).isPrefixOf (x :: (m' ++ t)) = false := by
      simp [List.isPrefixOf, hbeq]
    rw [List.cons_append, pysplit_cons_no_match _ _ _ hp, ih hm']
    cases hsp : pysplit (s0 :: st) t with
    | nil => simp
    | cons h tl => simp

/-- Splitting a string in which the separator's first character does not
occur at all leaves it whole. -/
theorem pysplit_no_occurrence (sep : List Char) (s0 : Char) (st l : List Char)
    (hsep : sep = s0 :: st) (h : s0 ∉ l) :
    pysplit sep l = [l] := by
  have h1 := pysplit_skip sep s0 st l [] hsep h
  rw [show pysplit sep [] = [[]] from rfl] at h1
  simpa using h1

/-- `lstrip` swallows a leading whitespace character. -/
theorem lstrip_cons_of_ws (c : Char) (l : PyStr) (h : pyws c = true) :
    lstrip (c :: l) = lstrip l := by
  simp [lstrip, List.dropWhile_cons, h]

/-- `lstrip` is the identity when the head is not whitespace. -/
theorem lstrip_eq_self (l : PyStr) (c : Char) (h : l.head? = some c)
    (hw : pyws c = false) : lstrip l = l := by
  cases l with
  | nil => rfl
  | cons a t =>
    simp only [List.head?_cons, Option.some.injEq] at h
    subst h
    simp [lstrip, List.dropWhile_cons, hw]

/-- `rstrip` is the identity when the last character is not whitespace. -/
theorem rstrip_eq_self (l : PyStr) (c : Char) (h : l.getLast? = some c)
    (hw : pyws c = false) : rstrip l = l := by
  have hr : l.reverse.head? = some c := by rw [List.head?_reverse]; exact h
  have : l.reverse.dropWhile pyws = l.reverse := lstrip_eq_self l.reverse c hr hw
  simp [rstrip, this]

/-- `rstrip` swallows a trailing whitespace character. -/
theorem rstrip_append_ws (l : PyStr) (c : Char) (h : pyws c = true) :
    rstrip (l ++ [c]) = rstrip l := by
  simp [rstrip, List.reverse_append, List.dropWhile_cons, h]

/-- `pystrip` is the identity when both ends are not whitespace. -/
theorem pystrip_eq_self (l : PyStr) (a b : Char) (h1 : l.head? = some a)
    (h2 : l.getLast? = some b) (hwa : pyws a = false) (hwb : pyws b = false) :
    pystrip l = l := by
  unfold pystrip
  rw [lstrip_eq_self l a h1 hwa, rstrip_eq_self l b h2 hwb]

/-- Last element of `x ++ (y ++ [c])`. -/
theorem getLast?_append_append_singleton (x y : List Char) (c : Char) :
    (x ++ (y ++ [c])).getLast? = some c := by
  rw [← List.append_assoc]
  exact List.getLast?_concat _

/-- `isPrefixOf` holds on an extension of the prefix itself. -/
theorem isPrefixOf_append_self (l t : List Char) : l.isPrefixOf (l ++ t) = true :=
  List.isPrefixOf_iff_prefix.mpr (List.prefix_append l t)

/-- `isPrefixOf` fails when the heads differ. -/
theorem isPrefixOf_false_of_head_ne (s0 c : Char) (st l : List Char) (h : s0 ≠ c) :
    (s0 :: st).isPrefixOf (c :: l) = false := by
  have hbeq : (s0 == c) = false := beq_eq_false_iff_ne.mpr h
  simp [List.isPrefixOf, hbeq]

/-- `findChar` on an append whose first part avoids the character. -/
theorem findChar_append_not (c : Char) (m l : PyStr) (h : c ∉ m) :
    findChar c (m ++ l) = (findChar c l).map (· + m.length) := by
  induction m with
  | nil => cases hf : findChar c l <;> simp [hf]
  | cons x m' ih =>
    have hx : x ≠ c := fun he => h (he ▸ List.mem_cons_self x m')
    have h' : c ∉ m' := fun hmem => h (List.mem_cons_of_mem _ hmem)
    have hstep : findChar c ((x :: m') ++ l)
        = (findChar c (m' ++ l)).map (· + 1) := by
      simp [findChar, if_neg hx]
    rw [hstep, ih h']
    cases hf : findChar c l with
    | none => rfl
    | some i =>
      show some ((i + m'.length) + 1) = some (i + (m'.length + 1))
      rw [Nat.add_assoc]


/-- `pystrip` fixes the `"```json"` wrapper (it starts and ends with a
backquote). -/
theorem pystrip_wrap_json (P : PyStr) : pystrip (wrap_json P) = wrap_json P := by
  have hlast : (wrap_json P).getLast? = some backquote := by
    show (("```json\n".toList ++ P) ++ "\n```".toList).getLast? = some backquote
    rw [show ("\n```".toList : PyStr) = "\n``".toList ++ [backquote] from rfl]
    exact getLast?_append_append_singleton _ _ _
  exact pystrip_eq_self (wrap_json P) backquote backquote rfl hlast (by decide) (by decide)

/-- `pystrip` fixes the plain `"```"` wrapper. -/
theorem pystrip_wrap_fence (P : PyStr) : pystrip (wrap_fence P) = wrap_fence P := by
  have hlast : (wrap_fence P).getLast? = some backquote := by
    show (("```\n".toList ++ P) ++ "\n```".toList).getLast? = some backquote
    rw [show ("\n```".toList : PyStr) = "\n``".toList ++ [backquote] from rfl]
    exact getLast?_append_append_singleton _ _ _
  exact pystrip_eq_self (wrap_fence P) backquote backquote rfl hlast (by decide) (by decide)

/-- The inner strip of the fenced-block extraction recovers the payload. -/
theorem pystrip_inner_recovers (P Pt : PyStr) (hP : P = '{' :: Pt)
    (hlast : P.getLast? = some '}') :
    pystrip ('\n' :: (P ++ ['\n'])) = P := by
  unfold pystrip
  have h1 : lstrip ('\n' :: (P ++ ['\n'])) = P ++ ['\n'] := by
    rw [lstrip_cons_of_ws _ _ (by decide)]
    apply lstrip_eq_self _ '{' ?_ (by decide)
    rw [hP]; rfl
  rw [h1, rstrip_append_ws _ _ (by decide)]
  exact rstrip_eq_self P '}' hlast (by decide)

/-- The payload block has no backquote when the payload has none. -/
theorem backquote_not_in_block (P : PyStr) (hbq : backquote ∉ P) :
    backquote ∉ '\n' :: (P ++ ['\n']) := by
  simp only [List.mem_cons, List.mem_append, List.mem_singleton]
  push_neg
  exact ⟨by decide, hbq, by decide⟩

/-- Reassociation of the payload block against the closing marker. -/
theorem block_append_fence (P : PyStr) :
    ('\n' :: (P ++ ['\n'])) ++ fence = '\n' :: (P ++ "\n```".toList) := by
  rw [List.cons_append, List.append_assoc]
  rfl

/-- Splitting the `"```json"`-wrapped payload on the opening marker. -/
theorem pysplit_wrap_json (P : PyStr) (hbq : backquote ∉ P) :
    pysplit fenceJson (wrap_json P) = [[], '\n' :: (P ++ "\n```".toList)] := by
  rw [show wrap_json P = fenceJson ++ ('\n' :: (P ++ "\n```".toList)) from rfl,
      pysplit_append_self fenceJson _ backquote "``json".toList rfl]
  congr 1
  rw [← block_append_fence P,
      pysplit_skip fenceJson backquote "``json".toList _ fence rfl
        (backquote_not_in_block P hbq),
      pysplit_short fenceJson fence (by decide)]

/-- `pysplit fence fence = [[], []]`. -/
theorem pysplit_fence_fence : pysplit fence fence = [[], []] := by
  have h0 := pysplit_append_self fence [] backquote "``".toList rfl
  simpa using h0

/-- Splitting the payload block on the closing marker isolates it. -/
theorem pysplit_block_fence (P : PyStr) (hbq : backquote ∉ P) :
    pysplit fence ('\n' :: (P ++ "\n```".toList)) = ['\n' :: (P ++ ['\n']), []] := by
  rw [← block_append_fence P,
      pysplit_skip fence backquote "``".toList _ fence rfl (backquote_not_in_block P hbq),
      pysplit_fence_fence]
  simp

/-- The fenced-block cleanup recovers a brace-delimited payload from the
`"```json"` wrapper. -/
theorem clean_fence_only_wrap_json (P Pt : PyStr) (hP : P = '{' :: Pt)
    (hlast : P.getLast? = some '}') (hbq : backquote ∉ P) :
    clean_response_fence_only (wrap_json P) = P := by
  simp only [clean_response_fence_only, pystrip_wrap_json]
  have hpre : fenceJson.isPrefixOf (wrap_json P) = true := by
    rw [show wrap_json P = fenceJson ++ ('\n' :: (P ++ "\n```".toList)) from rfl]
    exact isPrefixOf_append_self _ _
  rw [hpre]
  simp only [if_true]
  rw [pysplit_wrap_json P hbq,
      show pyindex [[], '\n' :: (P ++ "\n```".toList)] 1
        = '\n' :: (P ++ "\n```".toList) from rfl,
      pysplit_block_fence P hbq,
      show pyindex ['\n' :: (P ++ ['\n']), []] 0 = '\n' :: (P ++ ['\n']) from rfl]
  exact pystrip_inner_recovers P Pt hP hlast

/-- The fenced-block cleanup recovers a brace-delimited payload from the
plain `"```"` wrapper. -/
theorem clean_fence_only_wrap_fence (P Pt : PyStr) (hP : P = '{' :: Pt)
    (hlast : P.getLast? = some '}') (hbq : backquote ∉ P) :
    clean_response_fence_only (wrap_fence P) = P := by
  simp only [clean_response_fence_only, pystrip_wrap_fence]
  have hnotjson : fenceJson.isPrefixOf (wrap_fence P) = false := rfl
  have hpre : fence.isPrefixOf (wrap_fence P) = true := by
    rw [show wrap_fence P = fence ++ ('\n' :: (P ++ "\n```".toList)) from rfl]
    exact isPrefixOf_append_self _ _
  rw [hnotjson, hpre]
  simp only [Bool.false_eq_true, if_false, if_true]
  rw [show wrap_fence P = fence ++ ('\n' :: (P ++ "\n```".toList)) from rfl,
      pysplit_append_self fence _ backquote "``".toList rfl,
      pysplit_block_fence P hbq,
      show pyindex ([] :: ['\n' :: (P ++ ['\n']), []]) 1 = '\n' :: (P ++ ['\n']) from rfl,
      pysplit_no_occurrence fence backquote "``".toList _ rfl (backquote_not_in_block P hbq),
      show pyindex ['\n' :: (P ++ ['\n'])] 0 = '\n' :: (P ++ ['\n']) from rfl]
  exact pystrip_inner_recovers P Pt hP hlast

/-- The final brace check of the cleanup keeps a payload that opens with
`{` unchanged. -/
theorem clean_response_of_fence_only (resp P Pt : PyStr) (hP : P = '{' :: Pt)
    (h : clean_response_fence_only resp = P) : clean_response resp = P := by
  simp only [clean_response, h]
  have hpre : ("\x7b".toList).isPrefixOf P = true := by
    rw [hP]; simp [List.isPrefixOf]
  rw [hpre]
  simp

/-- The brace-slice step of the cleanup recovers a brace-delimited payload
from an arbitrary prose prefix free of backquotes and `{`. -/
theorem clean_response_prose (prose P Pt : PyStr) (hP : P = '{' :: Pt)
    (hlast : P.getLast? = some '}')
    (hbq : backquote ∉ prose) (hlb : '{' ∉ prose) :
    clean_response (prose ++ P) = P := by
  obtain ⟨rr, hrev⟩ : ∃ rr, P.reverse = '}' :: rr := by
    have hh : P.reverse.head? = some '}' := by rw [List.head?_reverse]; exact hlast
    cases hr : P.reverse with
    | nil => rw [hr] at hh; cases hh
    | cons b rr =>
      rw [hr] at hh
      simp only [List.head?_cons, Option.some.injEq] at hh
      exact ⟨rr, by rw [hh]⟩
  have hdw : lstrip (prose ++ P)
      = if (lstrip prose).isEmpty then lstrip P else lstrip prose ++ P :=
    List.dropWhile_append
  have hlsP : lstrip P = P := by
    apply lstrip_eq_self _ '{' ?_ (by decide)
    rw [hP]; rfl
  cases hqc : lstrip prose with
  | nil =>
    have hstrip : pystrip (prose ++ P) = P := by
      unfold pystrip
      rw [hdw, hqc]
      simp only [List.isEmpty_nil, if_true]
      rw [hlsP]
      exact rstrip_eq_self P '}' hlast (by decide)
    have hf3 : ("\x7b".toList).isPrefixOf P = true := by
      rw [hP]; simp [List.isPrefixOf]
    have hfo : clean_response_fence_only (prose ++ P) = P := by
      simp only [clean_response_fence_only]
      rw [hstrip]
      rw [show fenceJson.isPrefixOf P = false from by
            rw [hP, show fenceJson = backquote :: "``json".toList from rfl]
            exact isPrefixOf_false_of_head_ne _ _ _ _ (by decide),
          show fence.isPrefixOf P = false from by
            rw [hP, show fence = backquote :: "``".toList from rfl]
            exact isPrefixOf_false_of_head_ne _ _ _ _ (by decide)]
      simp
    simp only [clean_response]
    rw [hfo, hf3]
    simp
  | cons c q' =>
    have hcmem : c ∈ prose := by
      apply (List.dropWhile_sublist pyws).subset
      rw [show List.dropWhile pyws prose = c :: q' from hqc]
      exact List.mem_cons_self c q'
    have hqsub : ∀ x ∈ c :: q', x ∈ prose := by
      intro x hx
      apply (List.dropWhile_sublist pyws).subset
      rw [show List.dropWhile pyws prose = c :: q' from hqc]
      exact hx
    have hcbq : backquote ≠ c := fun he => hbq (he ▸ hcmem)
    have hclb : '{' ≠ c := fun he => hlb (he ▸ hcmem)
    have hqlb : '{' ∉ c :: q' := fun hmem => hlb (hqsub _ hmem)
    have hlsp : lstrip (prose ++ P) = (c :: q') ++ P := by
      rw [hdw, hqc]
      simp
    have hgl : ((c :: q') ++ P).getLast? = some '}' := by
      rw [show ((c :: q') ++ P).getLast? = ((c :: q') ++ P).reverse.head? from
            (List.head?_reverse _).symm,
          List.reverse_append, hrev]
      rfl
    have hstrip : pystrip (prose ++ P) = (c :: q') ++ P := by
      unfold pystrip
      rw [hlsp]
      exact rstrip_eq_self _ '}' hgl (by decide)
    have hf1 : fenceJson.isPrefixOf ((c :: q') ++ P) = false := by
      rw [show (c :: q') ++ P = c :: (q' ++ P) from rfl,
          show fenceJson = backquote :: "``json".toList from rfl]
      exact isPrefixOf_false_of_head_ne _ _ _ _ hcbq
    have hf2 : fence.isPrefixOf ((c :: q') ++ P) = false := by
      rw [show (c :: q') ++ P = c :: (q' ++ P) from rfl,
          show fence = backquote :: "``".toList from rfl]
      exact isPrefixOf_false_of_head_ne _ _ _ _ hcbq
    have hf3 : ("\x7b".toList).isPrefixOf ((c :: q') ++ P) = false := by
      rw [show (c :: q') ++ P = c :: (q' ++ P) from rfl,
          show ("\x7b".toList : PyStr) = '{' :: ([] : List Char) from rfl]
      exact isPrefixOf_false_of_head_ne _ _ _ _ hclb
    have hfind : findChar '{' ((c :: q') ++ P) = some (c :: q').length := by
      rw [findChar_append_not '{' _ _ hqlb, hP]
      simp [findChar]
    have hrfind : rfindChar '}' ((c :: q') ++ P)
        = some (((c :: q') ++ P).length - 1) := by
      unfold rfindChar
      rw [List.reverse_append, hrev,
          show ('}' :: rr) ++ (c :: q').reverse = '}' :: (rr ++ (c :: q').reverse) from rfl]
      simp [findChar]
    have hPlen : P.length = Pt.length + 1 := by rw [hP]; simp
    have htot : ((c :: q') ++ P).length = (c :: q').length + P.length :=
      List.length_append _ _
    have hcond : (c :: q').length < ((c :: q') ++ P).length - 1 + 1 := by omega
    have hfo : clean_response_fence_only (prose ++ P) = (c :: q') ++ P := by
      simp only [clean_response_fence_only]
      rw [hstrip, hf1, hf2]
      simp
    simp only [clean_response]
    rw [hfo, hf3]
    simp only [Bool.false_eq_true, if_false]
    rw [hfind, hrfind]
    simp only [if_pos hcond]
    unfold pyslice
    have hlen1 : ((c :: q') ++ P).length - 1 + 1 - (c :: q').length = P.length := by omega
    rw [hlen1, List.drop_left, List.take_length]

/-- Claim C2, counterexample.  The payload `[1, 2]` parses on its own, but
the cleanup-and-parse routine applied to it prefixed with the prose
`"Answer: "` fails to parse (the routine only recovers brace-delimited
payloads, and the prose is kept since the text contains no `{`): the
result is not the structure obtained by parsing the payload directly. -/
theorem extraction_cleanup_counterexample :
    (json_loads "[1, 2]".toList).isSome = true ∧
    extract_payload ("Answer: ".toList ++ "[1, 2]".toList) = none :=
  ⟨rfl, rfl⟩

/-- Claim C2, amended.  For a payload that is brace-delimited (opens with
`{`, closes with `}`) and contains no backquote, the cleanup-and-parse
routine is invariant under wrapping in a `"```json"` or plain `"```"`
fenced block, and under prefixing with prose that contains no backquote
and no `{`: in each case the cleaned text is exactly the payload, so the
parsed structure is identical to parsing the payload directly (which the
cleanup also leaves unchanged). -/
theorem extraction_cleanup_amended (P prose : PyStr)
    (hhead : P.head? = some '{') (hlast : P.getLast? = some '}')
    (hbqP : backquote ∉ P) (hbq : backquote ∉ prose) (hlb : '{' ∉ prose) :
    clean_response P = P ∧
    clean_response (wrap_json P) = P ∧
    clean_response (wrap_fence P) = P ∧
    clean_response (prose ++ P) = P ∧
    extract_payload (wrap_json P) = json_loads P ∧
    extract_payload (wrap_fence P) = json_loads P ∧
    extract_payload (prose ++ P) = json_loads P := by
  obtain ⟨Pt, hP⟩ : ∃ Pt, P = '{' :: Pt := by
    cases P with
    | nil => cases hhead
    | cons a t =>
      simp only [List.head?_cons, Option.some.injEq] at hhead
      exact ⟨t, by rw [hhead]⟩
  have hfoP : clean_response_fence_only P = P := by
    simp only [clean_response_fence_only]
    rw [pystrip_eq_self P '{' '}' hhead hlast (by decide) (by decide)]
    rw [show fenceJson.isPrefixOf P = false from by
          rw [hP, show fenceJson = backquote :: "``json".toList from rfl]
          exact isPrefixOf_false_of_head_ne _ _ _ _ (by decide),
        show fence.isPrefixOf P = false from by
          rw [hP, show fence = backquote :: "``".toList from rfl]
          exact isPrefixOf_false_of_head_ne _ _ _ _ (by decide)]
    simp
  have h0 : clean_response P = P := clean_response_of_fence_only P P Pt hP hfoP
  have h1 : clean_response (wrap_json P) = P :=
    clean_response_of_fence_only _ P Pt hP (clean_fence_only_wrap_json P Pt hP hlast hbqP)
  have h2 : clean_response (wrap_fence P) = P :=
    clean_response_of_fence_only _ P Pt hP (clean_fence_only_wrap_fence P Pt hP hlast hbqP)
  have h3 : clean_response (prose ++ P) = P :=
    clean_response_prose prose P Pt hP hlast hbq hlb
  refine ⟨h0, h1, h2, h3, ?_, ?_, ?_⟩
  · unfold extract_payload; rw [h1]
  · unfold extract_payload; rw [h2]
  · unfold extract_payload; rw [h3]

/-- Witness for the amended C2 at the payload `{"a": 1}` and the prose
prefix `"Answer: "`. -/
theorem extraction_cleanup_amended_witness :
    clean_response "\x7b\"a\": 1\x7d".toList = "\x7b\"a\": 1\x7d".toList ∧
    clean_response (wrap_json "\x7b\"a\": 1\x7d".toList) = "\x7b\"a\": 1\x7d".toList ∧
    clean_response (wrap_fence "\x7b\"a\": 1\x7d".toList) = "\x7b\"a\": 1\x7d".toList ∧
    clean_response ("Answer: ".toList ++ "\x7b\"a\": 1\x7d".toList) = "\x7b\"a\": 1\x7d".toList ∧
    extract_payload (wrap_json "\x7b\"a\": 1\x7d".toList) = json_loads "\x7b\"a\": 1\x7d".toList ∧
    extract_payload (wrap_fence "\x7b\"a\": 1\x7d".toList) = json_loads "\x7b\"a\": 1\x7d".toList ∧
    extract_payload ("Answer: ".toList ++ "\x7b\"a\": 1\x7d".toList)
      = json_loads "\x7b\"a\": 1\x7d".toList :=
  extraction_cleanup_amended "\x7b\"a\": 1\x7d".toList "Answer: ".toList rfl rfl
    (by decide) (by decide) (by decide)

set_option maxRecDepth 10000 in
/-- Claim C8, counterexample.  Validation is not a function of the
finding alone: validating the identical second finding `finding_b` after
`finding_xyz` versus after `finding_aaa` (same service, same initial
history) produces different validation records for it, because
`call_llm` prepends the conversation history accumulated while
validating the first finding, and the service's answer may depend on
that history. -/
theorem validate_findings_history_counterexample :
    ((validate_findings marker_oracle [] [finding_xyz, finding_b]).toOption.bind
        (fun p => (p.1.get? 1).map (fun r => r.content_validation.warnings)))
      = some (.arr [.str "Unable to fully validate content".toList]) ∧
    ((validate_findings marker_oracle [] [finding_aaa, finding_b]).toOption.bind
        (fun p => (p.1.get? 1).map (fun r => r.content_validation.warnings)))
      = some (.arr []) ∧
    JValue.arr [JValue.str "Unable to fully validate content".toList] ≠ JValue.arr [] ∧
    [finding_xyz, finding_b].get? 1 = [finding_aaa, finding_b].get? 1 :=
  ⟨rfl, rfl, by simp, rfl⟩

/-- Claim C8, amended.  A finding's validation record depends on its own
fields and on the conversation history accumulated while validating the
preceding findings of the same call (plus the agent's initial history):
two runs that agree on the initial history and on the first `n` findings
produce identical validation records at all positions below `n`,
whatever the later findings are. -/
theorem validate_findings_prefix_determinism (svc : LlmService) :
    ∀ (n : Nat) (fs1 fs2 : List ResearchFinding) (history : List ChatMessage)
      (rs1 rs2 : List ValidatedFinding) (h1 h2 : List ChatMessage),
      fs1.take n = fs2.take n →
      validate_findings svc history fs1 = .ok (rs1, h1) →
      validate_findings svc history fs2 = .ok (rs2, h2) →
      rs1.take n = rs2.take n := by
  intro n
  induction n with
  | zero => intro fs1 fs2 history rs1 rs2 h1 h2 ht hv1 hv2; simp
  | succ n ih =>
    intro fs1 fs2 history rs1 rs2 h1 h2 ht hv1 hv2
    cases fs1 with
    | nil =>
      cases fs2 with
      | nil =>
        simp only [validate_findings] at hv1 hv2
        cases hv1
        cases hv2
        rfl
      | cons f2 t2 => simp at ht
    | cons f1 t1 =>
      cases fs2 with
      | nil => simp at ht
      | cons f2 t2 =>
        rw [List.take_succ_cons, List.take_succ_cons] at ht
        injection ht with hf ht'
        subst hf
        simp only [validate_findings] at hv1 hv2
        cases hes : evaluate_source_result f1.source
            (call_llm svc history (evaluate_source_prompt f1.source f1.url)).1 with
        | error e => rw [hes] at hv1; cases hv1
        | ok se =>
          rw [hes] at hv1 hv2
          cases hcv : validate_content_result
              (call_llm svc
                (call_llm svc history (evaluate_source_prompt f1.source f1.url)).2
                (validate_content_prompt f1.content f1.key_points f1.source)).1 with
          | error e => rw [hcv] at hv1; cases hv1
          | ok cv =>
            rw [hcv] at hv1 hv2
            cases hrec1 : validate_findings svc
                (call_llm svc
                  (call_llm svc history (evaluate_source_prompt f1.source f1.url)).2
                  (validate_content_prompt f1.content f1.key_points f1.source)).2 t1 with
            | error e => rw [hrec1] at hv1; cases hv1
            | ok p1 =>
              cases hrec2 : validate_findings svc
                  (call_llm svc
                    (call_llm svc history (evaluate_source_prompt f1.source f1.url)).2
                    (validate_content_prompt f1.content f1.key_points f1.source)).2 t2 with
              | error e => rw [hrec2] at hv2; cases hv2
              | ok p2 =>
                rw [hrec1] at hv1
                rw [hrec2] at hv2
                cases hv1
                cases hv2
                rw [List.take_succ_cons, List.take_succ_cons]
                congr 1
                exact ih t1 t2 _ p1.1 p2.1 p1.2 p2.2 ht' (by rw [hrec1]) (by rw [hrec2])

set_option maxRecDepth 10000 in
/-- Witness for the amended C8: two runs sharing the first finding (and
the empty initial history) produce the same first validation record,
although their second findings differ. -/
theorem validate_findings_prefix_determinism_witness :
    ((validate_findings (fun _ => good_score_response) []
        [finding_b, finding_xyz]).toOption.getD ([], [])).1.take 1
      = ((validate_findings (fun _ => good_score_response) []
        [finding_b, finding_aaa]).toOption.getD ([], [])).1.take 1 := by
  exact validate_findings_prefix_determinism (fun _ => good_score_response) 1
    [finding_b, finding_xyz] [finding_b, finding_aaa] [] _ _ _ _ rfl rfl rfl
